import Mathlib

/-!
Verification development for the fileglancer-central proxied-sharing gateway.

Shallow embedding of:
  * `fileglancer_central/usercontext.py` — the privilege context (`UserContext`)
    that narrows the process's effective identity to a named user;
  * `fileglancer_central/database.py` — `update_file_share_paths`, the wiki
    table synchronizer with its deletion guard;
  * `fileglancer_central/app.py` — `_cache_wiki_paths`, the cached
    fsp-name→mount-path map, `_get_file_proxy_client` and `target_dispatcher`.

Machine state (process credentials, database tables, the functools cache) is
passed explicitly; fallible operations return explicit outcome values.
-/

namespace Fileglancer

/-! ## Process identity model (`usercontext.py`)

The POSIX process credential state visible to the code: real uid/gid
(`os.getuid`/`os.getgid`), effective uid/gid (`os.seteuid`/`os.setegid`),
and the supplementary group list (`os.setgroups`). -/

structure ProcState where
  ruid : Nat
  rgid : Nat
  euid : Nat
  egid : Nat
  groups : List Nat
deriving DecidableEq, Repr

/-- Embeds `UserContext.__init__`: captures the username and the process's
REAL uid and gid (`os.getuid()` / `os.getgid()`), not the effective ones. -/
structure UserContext where
  username : String
  saved_uid : Nat
  saved_gid : Nat
deriving DecidableEq, Repr

def UserContext.init (s : ProcState) (username : String) : UserContext :=
  { username := username, saved_uid := s.ruid, saved_gid := s.rgid }

/-- One identity-changing syscall issued by `UserContext.__enter__`. -/
inductive SysCall where
  | setegid (g : Nat)
  | setgroups (gs : List Nat)
  | seteuid (u : Nat)
deriving DecidableEq, Repr

/-- Failure injection for the three forward identity-changing syscalls of
`__enter__` (the unwind call `os.setegid(self._gid)` is modelled as
succeeding, as the source assumes). -/
structure SysBehavior where
  egidFails : Bool
  groupsFails : Bool
  euidFails : Bool
deriving DecidableEq, Repr

structure EnterOutcome where
  success : Bool
  state : ProcState
  trace : List SysCall
deriving DecidableEq, Repr

/-- Embeds `UserContext.__enter__` after the `pwd.getpwnam` /
`os.getgrouplist` lookups returned `uid`, `gid`, `gids`:

```
try: os.setegid(gid) except: raise
try: os.setgroups(gids) except: os.setegid(self._gid); raise
try: os.seteuid(uid) except: os.setegid(self._gid); raise
```

The outcome records whether the block succeeded, the resulting process
state, and the ordered trace of attempted syscalls (a failing call leaves
the state unchanged and is recorded in the trace). -/
def UserContext.enter (ctx : UserContext) (s : ProcState)
    (uid gid : Nat) (gids : List Nat) (b : SysBehavior) : EnterOutcome :=
  if b.egidFails then
    { success := false, state := s, trace := [.setegid gid] }
  else if b.groupsFails then
    { success := false, state := { s with egid := ctx.saved_gid },
      trace := [.setegid gid, .setgroups gids, .setegid ctx.saved_gid] }
  else if b.euidFails then
    { success := false, state := { s with egid := ctx.saved_gid, groups := gids },
      trace := [.setegid gid, .setgroups gids, .seteuid uid, .setegid ctx.saved_gid] }
  else
    { success := true, state := { s with euid := uid, egid := gid, groups := gids },
      trace := [.setegid gid, .setgroups gids, .seteuid uid] }

/-- Embeds `UserContext.__exit__`: `os.seteuid(self._uid); os.setegid(self._gid)`.
It runs on whatever state `t` the bracketed operation left behind (Python
runs `__exit__` also when the body raised, since it returns `False` the
exception then propagates). -/
def UserContext.exit (ctx : UserContext) (t : ProcState) : ProcState :=
  { t with euid := ctx.saved_uid, egid := ctx.saved_gid }

/-- The whole `with UserContext(u): body` bracket for a successful enter:
the body is an arbitrary state transformer (covering bodies that raise —
`__exit__` runs regardless and does not inspect the body's outcome). -/
def UserContext.bracket (ctx : UserContext) (s : ProcState)
    (uid gid : Nat) (gids : List Nat) (body : ProcState → ProcState) : ProcState :=
  ctx.exit (body (ctx.enter s uid gid gids ⟨false, false, false⟩).state)

/-! ## Path metadata store and synchronizer (`database.py`, `app.py`) -/

/-- Embeds `slugify_path` from `database.py`: replace each character outside
`[a-zA-Z0-9]` with an underscore, collapse runs of underscores, strip leading
underscores. -/
def collapseUnderscores : List Char → List Char
  | [] => []
  | [c] => [c]
  | c :: d :: rest =>
    if c = '_' && d = '_' then collapseUnderscores (d :: rest)
    else c :: collapseUnderscores (d :: rest)

def slugify_path (s : String) : String :=
  let mapped := s.data.map (fun c => if c.isAlphanum then c else '_')
  String.mk ((collapseUnderscores mapped).dropWhile (· = '_'))

/-- One row of the `file_share_paths` table (`FileSharePathDB`); the surrogate
`id` column is elided, list position stands in for insertion order. -/
structure FspRow where
  name : String
  zone : String
  group : String
  storage : String
  mount_path : String
  mac_path : String
  windows_path : String
  linux_path : String
deriving DecidableEq, Repr

/-- One row of the fetched wiki table, with the columns
`('lab', 'storage', 'mac_path', 'windows_path', 'linux_path', 'group')`. -/
structure WikiRow where
  lab : String
  group : String
  storage : String
  mac_path : String
  windows_path : String
  linux_path : String
deriving DecidableEq, Repr

/-- The `FileSharePathDB` record built from a wiki row; `update_file_share_paths`
assigns exactly these fields both when inserting a new record and when
overwriting an existing one. -/
def recordOfRow (w : WikiRow) : FspRow :=
  { name := slugify_path w.linux_path
    zone := w.lab
    group := w.group
    storage := w.storage
    mount_path := w.linux_path
    mac_path := w.mac_path
    windows_path := w.windows_path
    linux_path := w.linux_path }

/-- `.filter_by(mount_path=...).first()` followed by a full-field overwrite:
replace the first record whose `mount_path` equals the row's `linux_path`. -/
def replaceFirst : List FspRow → WikiRow → List FspRow
  | [], _ => []
  | r :: rest, w =>
    if r.mount_path = w.linux_path then recordOfRow w :: rest
    else r :: replaceFirst rest w

/-- One iteration of the upsert loop of `update_file_share_paths`: update the
existing record with this `mount_path` if present, otherwise append a new one. -/
def upsertRow (acc : List FspRow) (w : WikiRow) : List FspRow :=
  if acc.any (fun r => r.mount_path == w.linux_path) then replaceFirst acc w
  else acc ++ [recordOfRow w]

/-- The `last_refresh` singleton row (`LastRefreshDB`); timestamps are seconds
as integers. -/
structure RefreshRow where
  source_last_updated : Int
  db_last_updated : Int
deriving DecidableEq, Repr

/-- The deletion set of one sync pass: stored `mount_path`s (as a set, hence
`dedup`) absent from the fetched table, exactly
`existing_paths - new_paths` in `update_file_share_paths`. -/
def deletionSet (paths : List FspRow) (table : List WikiRow) : List String :=
  ((paths.map (·.mount_path)).dedup).filter
    (fun p => !((table.map (·.linux_path)).contains p))

/-- Embeds `update_file_share_paths(session, table, table_last_updated,
max_paths_to_delete=2)`: snapshot the existing `mount_path` set, upsert every
table row in order, compute the deletion set as stored-but-absent, refuse the
deletion when its size exceeds `maxPathsToDelete` (otherwise delete by
`linux_path` membership), and replace the `last_refresh` row. -/
def updateFileSharePaths (paths : List FspRow) (table : List WikiRow)
    (table_last_updated now : Int) (maxPathsToDelete : Nat) :
    List FspRow × RefreshRow :=
  let upserted := table.foldl upsertRow paths
  let paths_to_delete := deletionSet paths table
  let final :=
    if paths_to_delete.isEmpty then upserted
    else if paths_to_delete.length > maxPathsToDelete then upserted
    else upserted.filter (fun r => !(paths_to_delete.contains r.linux_path))
  (final, ⟨table_last_updated, now⟩)

/-- The database state the synchronizer touches. -/
structure SyncState where
  paths : List FspRow
  refresh : Option RefreshRow
deriving DecidableEq, Repr

/-- `(datetime.now() - t).days` for timestamps in seconds: floor division,
matching Python `timedelta.days`. -/
def daysSince (t now : Int) : Int := (now - t).fdiv 86400

/-- The staleness test of `_cache_wiki_paths`:
`not last_refresh or (now - last_refresh.db_last_updated).days >= 1 or force`. -/
def needsRefresh (s : SyncState) (now : Int) (force : Bool) : Bool :=
  match s.refresh with
  | none => true
  | some r => decide (daysSince r.db_last_updated now ≥ 1) || force

/-- Embeds the mutation path of `_cache_wiki_paths` (`app.py`) for a
successful fetch that returned `table` with timestamp `table_last_updated`:
when the staleness test passes, fetch, and apply `update_file_share_paths`
only if there is no recorded refresh or the source timestamp changed. -/
def cacheWikiPaths (s : SyncState) (now : Int) (force : Bool)
    (table : List WikiRow) (table_last_updated : Int) : SyncState :=
  if needsRefresh s now force then
    let changed :=
      match s.refresh with
      | none => true
      | some r => decide (table_last_updated ≠ r.source_last_updated)
    if changed then
      let res := updateFileSharePaths s.paths table table_last_updated now 2
      { paths := res.1, refresh := some res.2 }
    else s
  else s

/-! ## File proxy dispatcher (`app.py`) -/

/-- One row of the proxied-path registry consulted by the dispatcher. -/
structure ProxiedPathRow where
  username : String
  sharing_key : String
  sharing_name : String
  fsp_name : String
  path : String
deriving DecidableEq, Repr

/-- Modelled from the spec: `db.get_proxied_path_by_sharing_key` — its body is
not among the sources here (only its caller `_get_file_proxy_client` is); per
the Registry contract "`resolve(sharing_key)`: returns the row or a not-found
signal", modelled as lookup of the row holding the sharing key. -/
def getProxiedPathBySharingKey (pp : List ProxiedPathRow) (key : String) :
    Option ProxiedPathRow :=
  pp.find? (fun r => r.sharing_key == key)

/-- The settings fields the dispatcher reads. -/
structure GatewaySettings where
  use_access_flags : Bool
  file_share_mounts : List String
deriving DecidableEq, Repr

/-- Python dict insertion: overwrite the value when the key exists, else
append. -/
def dictInsert (m : List (String × String)) (k v : String) :
    List (String × String) :=
  if m.any (fun p => p.1 == k) then
    m.map (fun p => if p.1 = k then (k, v) else p)
  else m ++ [(k, v)]

def dictOf (l : List (String × String)) : List (String × String) :=
  l.foldl (fun m p => dictInsert m p.1 p.2) []

def dictFind (m : List (String × String)) (k : String) : Option String :=
  (m.find? (fun p => p.1 == k)).map (·.2)

/-- The body of `_get_fsp_names_to_mount_paths`: the static
`{fsp.name: fsp.mount_path}` map when `file_share_mounts` is configured
(names derived by `slugify_path` as in the `FileSharePath` construction),
otherwise the map over all rows of the store. -/
def computeFspMap (settings : GatewaySettings) (store : List FspRow) :
    List (String × String) :=
  if settings.file_share_mounts.isEmpty then
    dictOf (store.map (fun r => (r.name, r.mount_path)))
  else
    dictOf (settings.file_share_mounts.map (fun p => (slugify_path p, p)))

/-- The `@cache` (functools) wrapper on `_get_fsp_names_to_mount_paths`:
the map is computed from the store on the first call only and replayed from
the memo on every later call. -/
def getFspNamesToMountPaths (settings : GatewaySettings) (store : List FspRow)
    (c : Option (List (String × String))) :
    List (String × String) × Option (List (String × String)) :=
  match c with
  | some m => (m, some m)
  | none =>
    let m := computeFspMap settings store
    (m, some m)

/-- The proxy context built for a resolved request:
`AccessFlagsProxyContext(username)` (privilege narrowing to `username` via
`UserContext`) when `use_access_flags` is set, else the no-op `ProxyContext`. -/
inductive ProxyCtx where
  | accessFlags (username : String)
  | noop
deriving DecidableEq, Repr

/-- What a dispatcher request results in. Only the `listObjects` and
`getObject` outcomes touch the filesystem, and only they enter a proxy
context; the error outcomes are produced before any filesystem access and
before any privilege narrowing. -/
inductive DispatchOutcome where
  | aclDoc
  | noSuchBucket (resource : String)
  | errorResponse (status : Nat) (code : String) (message : String)
      (resource : String)
  | listObjects (ctx : ProxyCtx) (clientPath : String)
      (continuationToken : Option String) (delimiter : Option String)
      (encodingType : Option String) (fetchOwner : Option Bool)
      (maxKeys : Option Int) (pfx : Option String) (startAfter : Option String)
  | getObject (ctx : ProxyCtx) (clientPath : String) (objPath : String)
      (rangeHeader : Option String)
deriving DecidableEq, Repr

/-- The `FileProxyClient` + context pair returned on successful resolution:
the client's base path `f"{fsp_mount_path}/{proxied_path.path}"` and the
proxy context. -/
structure ClientInfo where
  clientPath : String
  ctx : ProxyCtx
deriving DecidableEq, Repr

/-- Embeds `_get_file_proxy_client(sharing_key, sharing_name)`, threading the
functools-cache state `c`: unknown key ⇒ `get_nosuchbucket_response`;
stored `sharing_name` different from the supplied one ⇒ 400 `InvalidArgument`;
then build the proxy context, resolve the share's `fsp_name` through the
(cached) name→mount map, and return the client info. -/
def getFileProxyClient (settings : GatewaySettings)
    (pp : List ProxiedPathRow) (store : List FspRow)
    (c : Option (List (String × String))) (sharing_key sharing_name : String) :
    (ClientInfo ⊕ DispatchOutcome) × Option (List (String × String)) :=
  match getProxiedPathBySharingKey pp sharing_key with
  | none => (.inr (.noSuchBucket sharing_name), c)
  | some row =>
    if row.sharing_name ≠ sharing_name then
      (.inr (.errorResponse 400 "InvalidArgument"
        ("Sharing name mismatch for sharing key " ++ sharing_key) sharing_name), c)
    else
      let ctx := if settings.use_access_flags then ProxyCtx.accessFlags row.username
                 else ProxyCtx.noop
      let mc := getFspNamesToMountPaths settings store c
      match dictFind mc.1 row.fsp_name with
      | none =>
        (.inr (.errorResponse 400 "InvalidArgument"
          ("File share path " ++ row.fsp_name ++ " not found") sharing_name), mc.2)
      | some mount =>
        (.inl { clientPath := mount ++ "/" ++ row.path, ctx := ctx }, mc.2)

/-- A GET request to `/files/{sharing_key}/{sharing_name}/{path}` with its
query parameters and `Range` header. -/
structure GatewayRequest where
  sharing_key : String
  sharing_name : String
  path : String
  hasAclParam : Bool
  listType : Option Int
  continuationToken : Option String
  delimiter : Option String
  encodingType : Option String
  fetchOwner : Option Bool
  maxKeys : Option Int
  pfx : Option String
  startAfter : Option String
  rangeHeader : Option String
deriving DecidableEq, Repr

/-- Python truthiness of the `Optional[int]` value `list_type`:
`None` and `0` are falsy. -/
def intTruthy : Option Int → Bool
  | none => false
  | some n => decide (n ≠ 0)

def listTypeStr : Option Int → String
  | none => "None"
  | some n => toString n

/-- Embeds `target_dispatcher` (`app.py`): `acl` short-circuit, client
resolution, then `if list_type: (== 2 ? list_objects_v2 : InvalidArgument)
else get_object(path, range)`. The cache state is threaded through. -/
def targetDispatcher (settings : GatewaySettings)
    (pp : List ProxiedPathRow) (store : List FspRow)
    (c : Option (List (String × String))) (req : GatewayRequest) :
    DispatchOutcome × Option (List (String × String)) :=
  if req.hasAclParam then (.aclDoc, c)
  else
    match getFileProxyClient settings pp store c req.sharing_key req.sharing_name with
    | (.inr resp, c2) => (resp, c2)
    | (.inl info, c2) =>
      if intTruthy req.listType then
        if req.listType = some 2 then
          (.listObjects info.ctx info.clientPath req.continuationToken
            req.delimiter req.encodingType req.fetchOwner req.maxKeys
            req.pfx req.startAfter, c2)
        else
          (.errorResponse 400 "InvalidArgument"
            ("Invalid list type " ++ listTypeStr req.listType) req.path, c2)
      else
        (.getObject info.ctx info.clientPath req.path req.rangeHeader, c2)

/-! ## Path resolution (for the traversal claim) -/

/-- Process one `/`-separated segment of a POSIX path: empty and `.` are
no-ops, `..` pops the last component. -/
def pushSeg (stack : List String) (seg : String) : List String :=
  if seg = "" || seg = "." then stack
  else if seg = ".." then stack.dropLast
  else stack ++ [seg]

/-- Split a character list on `/`, accumulating the current segment. -/
def splitSlashAux : List Char → List Char → List String
  | [], acc => [String.mk acc.reverse]
  | c :: rest, acc =>
    if c = '/' then String.mk acc.reverse :: splitSlashAux rest []
    else splitSlashAux rest (c :: acc)

def resolvePath (p : String) : List String :=
  (splitSlashAux p.data []).foldl pushSeg []

/-- The effective path `base ++ "/" ++ sub` resolves outside the tree rooted
at `base`. -/
def escapesRoot (base : String) (sub : String) : Bool :=
  !((resolvePath base).isPrefixOf (resolvePath (base ++ "/" ++ sub)))

/-! ## Helper lemmas for the synchronizer -/

theorem replaceFirst_mem_mount (l : List FspRow) (w : WikiRow) (m : String)
    (h : ∃ r ∈ l, r.mount_path = m) :
    ∃ r2 ∈ replaceFirst l w, r2.mount_path = m := by
  induction l with
  | nil => simp at h
  | cons a t ih =>
    obtain ⟨r, hr, hm⟩ := h
    simp only [replaceFirst]
    by_cases ha : a.mount_path = w.linux_path
    · rw [if_pos ha]
      rcases List.mem_cons.mp hr with h1 | h1
      · subst h1
        refine ⟨recordOfRow w, List.mem_cons_self _ _, ?_⟩
        show w.linux_path = m
        rw [← ha]; exact hm
      · exact ⟨r, List.mem_cons_of_mem _ h1, hm⟩
    · rw [if_neg ha]
      rcases List.mem_cons.mp hr with h1 | h1
      · exact ⟨a, List.mem_cons_self _ _, h1 ▸ hm⟩
      · obtain ⟨r2, hr2, hm2⟩ := ih ⟨r, h1, hm⟩
        exact ⟨r2, List.mem_cons_of_mem _ hr2, hm2⟩

theorem upsertRow_mem_mount (acc : List FspRow) (w : WikiRow) (m : String)
    (h : ∃ r ∈ acc, r.mount_path = m) :
    ∃ r2 ∈ upsertRow acc w, r2.mount_path = m := by
  unfold upsertRow
  split
  · exact replaceFirst_mem_mount acc w m h
  · obtain ⟨r, hr, hm⟩ := h
    exact ⟨r, List.mem_append_left _ hr, hm⟩

theorem upsertRow_adds (acc : List FspRow) (w : WikiRow) :
    ∃ r2 ∈ upsertRow acc w, r2.mount_path = w.linux_path := by
  unfold upsertRow
  split
  · next hc =>
    apply replaceFirst_mem_mount
    obtain ⟨r, hr, he⟩ := List.any_eq_true.mp hc
    exact ⟨r, hr, eq_of_beq he⟩
  · exact ⟨recordOfRow w, List.mem_append_right _ (List.mem_cons_self _ _), rfl⟩

theorem foldl_upsert_mem_mount (t : List WikiRow) (acc : List FspRow)
    (m : String) (h : ∃ r ∈ acc, r.mount_path = m) :
    ∃ r2 ∈ t.foldl upsertRow acc, r2.mount_path = m := by
  induction t generalizing acc with
  | nil => simpa using h
  | cons w t ih => exact ih _ (upsertRow_mem_mount acc w m h)

theorem foldl_upsert_contains (t : List WikiRow) (acc : List FspRow)
    (w : WikiRow) (hw : w ∈ t) :
    ∃ r2 ∈ t.foldl upsertRow acc, r2.mount_path = w.linux_path := by
  induction t generalizing acc with
  | nil => cases hw
  | cons w2 t ih =>
    rcases List.mem_cons.mp hw with h1 | h1
    · subst h1
      exact foldl_upsert_mem_mount t (upsertRow acc w) _ (upsertRow_adds acc w)
    · exact ih (upsertRow acc w2) h1

theorem cacheWikiPaths_source (s : SyncState) (now : Int) (force : Bool)
    (table : List WikiRow) (tlu : Int)
    (h : needsRefresh s now force = true) :
    ∃ r1, (cacheWikiPaths s now force table tlu).refresh = some r1 ∧
      r1.source_last_updated = tlu := by
  unfold cacheWikiPaths
  rw [if_pos h]
  cases hs : s.refresh with
  | none => exact ⟨⟨tlu, now⟩, rfl, rfl⟩
  | some r =>
    simp only [hs]
    split
    · exact ⟨⟨tlu, now⟩, rfl, rfl⟩
    · next hc =>
      have he : tlu = r.source_last_updated := by
        by_contra hne
        exact hc (by simpa using hne)
      exact ⟨r, hs, he.symm⟩

theorem cacheWikiPaths_skip (s : SyncState) (now : Int) (force : Bool)
    (table : List WikiRow) (tlu : Int) (r : RefreshRow)
    (h1 : s.refresh = some r) (h2 : r.source_last_updated = tlu) :
    cacheWikiPaths s now force table tlu = s := by
  unfold cacheWikiPaths
  simp [h1, ← h2]

/-! ## Claim theorems -/

/-- Claim C3, counterexample: a process whose effective uid/gid (5, 6) differ
from its real uid/gid (0, 0) constructs a `UserContext`, enters it
successfully (target uid 10, gid 20) and exits; the effective uid after exit
is 0 (the REAL uid captured by `__init__` via `os.getuid()`), not the
effective uid 5 the process had before enter — so "effective identity after
exit equals the effective identity before enter" fails as stated. -/
theorem userContext_restore_counterexample :
    ((UserContext.init ⟨0, 0, 5, 6, [0]⟩ "alice").enter ⟨0, 0, 5, 6, [0]⟩
        10 20 [20, 30] ⟨false, false, false⟩).success = true ∧
    ((UserContext.init ⟨0, 0, 5, 6, [0]⟩ "alice").exit
        ((UserContext.init ⟨0, 0, 5, 6, [0]⟩ "alice").enter ⟨0, 0, 5, 6, [0]⟩
          10 20 [20, 30] ⟨false, false, false⟩).state).euid = 0 ∧
    (⟨0, 0, 5, 6, [0]⟩ : ProcState).euid = 5 := by
  decide

/-- Claim C3 (amended): `__exit__` restores the REAL uid/gid captured at
construction; whenever the process's effective ids equal its real ids at
construction (entering from the original identity, the only entry the system
performs), the effective uid and gid after exit equal the effective identity
before enter — for an arbitrary post-body state `t`, which covers bracketed
operations that mutate state or raise (`__exit__` runs regardless and ignores
the body's outcome). -/
theorem userContext_exit_restores_identity (s t : ProcState) (username : String)
    (h1 : s.euid = s.ruid) (h2 : s.egid = s.rgid) :
    ((UserContext.init s username).exit t).euid = s.euid ∧
    ((UserContext.init s username).exit t).egid = s.egid := by
  simp [UserContext.exit, UserContext.init, h1, h2]

theorem userContext_exit_restores_identity_witness :
    ((UserContext.init ⟨0, 0, 0, 0, [0]⟩ "alice").exit ⟨0, 0, 10, 20, [20, 30]⟩).euid
      = (⟨0, 0, 0, 0, [0]⟩ : ProcState).euid ∧
    ((UserContext.init ⟨0, 0, 0, 0, [0]⟩ "alice").exit ⟨0, 0, 10, 20, [20, 30]⟩).egid
      = (⟨0, 0, 0, 0, [0]⟩ : ProcState).egid :=
  userContext_exit_restores_identity ⟨0, 0, 0, 0, [0]⟩ ⟨0, 0, 10, 20, [20, 30]⟩
    "alice" rfl rfl

/-- Claim C4: `__enter__` issues the identity changes in exactly the order
setegid, setgroups, seteuid (the success trace), and every failure leaves the
effective gid at the value captured by the context: a `setegid` failure
changes nothing (the state — and hence the pre-enter effective gid — is
untouched), while a `setgroups` or `seteuid` failure triggers the explicit
unwind call `os.setegid(self._gid)` so the propagated state has
`egid = saved_gid`. -/
theorem userContext_enter_order_and_unwind (ctx : UserContext) (s : ProcState)
    (uid gid : Nat) (gids : List Nat) :
    ctx.enter s uid gid gids ⟨false, false, false⟩ =
      ⟨true, { s with euid := uid, egid := gid, groups := gids },
        [.setegid gid, .setgroups gids, .seteuid uid]⟩ ∧
    (∀ g h : Bool, ctx.enter s uid gid gids ⟨true, g, h⟩ =
      ⟨false, s, [.setegid gid]⟩) ∧
    (∀ h : Bool, ctx.enter s uid gid gids ⟨false, true, h⟩ =
      ⟨false, { s with egid := ctx.saved_gid },
        [.setegid gid, .setgroups gids, .setegid ctx.saved_gid]⟩) ∧
    ctx.enter s uid gid gids ⟨false, false, true⟩ =
      ⟨false, { s with egid := ctx.saved_gid, groups := gids },
        [.setegid gid, .setgroups gids, .seteuid uid, .setegid ctx.saved_gid]⟩ :=
  ⟨rfl, fun _ _ => rfl, fun _ => rfl, rfl⟩

/-- Claim C10: when `__enter__` fails at the final `os.seteuid` call (after
`os.setgroups` already succeeded), the enter fails, the effective gid is
unwound to the captured value, the effective uid is untouched — but the
supplementary group list is left as the target user's list `gids`; no call
restores it to the original set. -/
theorem userContext_groups_not_restored (ctx : UserContext) (s : ProcState)
    (uid gid : Nat) (gids : List Nat) :
    (ctx.enter s uid gid gids ⟨false, false, true⟩).success = false ∧
    (ctx.enter s uid gid gids ⟨false, false, true⟩).state.groups = gids ∧
    (ctx.enter s uid gid gids ⟨false, false, true⟩).state.egid = ctx.saved_gid ∧
    (ctx.enter s uid gid gids ⟨false, false, true⟩).state.euid = s.euid :=
  ⟨rfl, rfl, rfl, rfl⟩

/-- Claim C5: when the deletion set of a sync pass is strictly larger than the
configured maximum, `update_file_share_paths` applies no deletion — the result
is exactly the upsert fold, every previously stored row is still present
(keyed by its `mount_path`) — while every upsert of the pass is applied (every
fetched row has a record under its `linux_path`). -/
theorem updateFileSharePaths_deletion_guard (paths : List FspRow)
    (table : List WikiRow) (tlu now : Int) (maxDel : Nat)
    (h : (deletionSet paths table).length > maxDel) :
    (updateFileSharePaths paths table tlu now maxDel).1 =
      table.foldl upsertRow paths ∧
    (∀ r ∈ paths, ∃ r2 ∈ (updateFileSharePaths paths table tlu now maxDel).1,
      r2.mount_path = r.mount_path) ∧
    (∀ w ∈ table, ∃ r2 ∈ (updateFileSharePaths paths table tlu now maxDel).1,
      r2.mount_path = w.linux_path) := by
  have heq : (updateFileSharePaths paths table tlu now maxDel).1 =
      table.foldl upsertRow paths := by
    simp only [updateFileSharePaths]
    split
    · rfl
    · rfl
  refine ⟨heq, ?_, ?_⟩
  · intro r hr
    rw [heq]
    exact foldl_upsert_mem_mount table paths r.mount_path ⟨r, hr, rfl⟩
  · intro w hw
    rw [heq]
    exact foldl_upsert_contains table paths w hw

theorem updateFileSharePaths_deletion_guard_witness :
    (deletionSet
        [⟨"a", "z", "g", "s", "/a", "m", "w", "/a"⟩,
         ⟨"b", "z", "g", "s", "/b", "m", "w", "/b"⟩,
         ⟨"c", "z", "g", "s", "/c", "m", "w", "/c"⟩,
         ⟨"d", "z", "g", "s", "/d", "m", "w", "/d"⟩]
        [⟨"lab", "g2", "s2", "mac", "win", "/a"⟩]).length > 2 ∧
    (∀ r ∈ [⟨"a", "z", "g", "s", "/a", "m", "w", "/a"⟩,
            ⟨"b", "z", "g", "s", "/b", "m", "w", "/b"⟩,
            ⟨"c", "z", "g", "s", "/c", "m", "w", "/c"⟩,
            ⟨"d", "z", "g", "s", "/d", "m", "w", "/d"⟩],
      ∃ r2 ∈ (updateFileSharePaths
        [⟨"a", "z", "g", "s", "/a", "m", "w", "/a"⟩,
         ⟨"b", "z", "g", "s", "/b", "m", "w", "/b"⟩,
         ⟨"c", "z", "g", "s", "/c", "m", "w", "/c"⟩,
         ⟨"d", "z", "g", "s", "/d", "m", "w", "/d"⟩]
        [⟨"lab", "g2", "s2", "mac", "win", "/a"⟩] 5 9 2).1,
        r2.mount_path = FspRow.mount_path r) :=
  ⟨by decide,
    (updateFileSharePaths_deletion_guard
      [⟨"a", "z", "g", "s", "/a", "m", "w", "/a"⟩,
       ⟨"b", "z", "g", "s", "/b", "m", "w", "/b"⟩,
       ⟨"c", "z", "g", "s", "/c", "m", "w", "/c"⟩,
       ⟨"d", "z", "g", "s", "/d", "m", "w", "/d"⟩]
      [⟨"lab", "g2", "s2", "mac", "win", "/a"⟩] 5 9 2 (by decide)).2.1⟩

/-- Claim C6: running `_cache_wiki_paths` twice against an external source
whose table and last-modified timestamp are unchanged performs no data
mutation in the second run: given that the first run consulted the source
(its staleness/force test passed), the second run — at any later time, forced
or not — leaves the `FileSharePath` rows and the `RefreshState` record
exactly as the first run left them. -/
theorem cacheWikiPaths_idempotent (s : SyncState) (now1 now2 : Int)
    (force1 force2 : Bool) (table : List WikiRow) (tlu : Int)
    (h : needsRefresh s now1 force1 = true) :
    cacheWikiPaths (cacheWikiPaths s now1 force1 table tlu) now2 force2 table tlu
      = cacheWikiPaths s now1 force1 table tlu := by
  obtain ⟨r1, hr1, hs1⟩ := cacheWikiPaths_source s now1 force1 table tlu h
  exact cacheWikiPaths_skip _ now2 force2 table tlu r1 hr1 hs1

theorem cacheWikiPaths_idempotent_witness :
    cacheWikiPaths
      (cacheWikiPaths ⟨[], none⟩ 0 false [⟨"lab", "g", "s", "mac", "win", "/a"⟩] 100)
      999999 true [⟨"lab", "g", "s", "mac", "win", "/a"⟩] 100
    = cacheWikiPaths ⟨[], none⟩ 0 false [⟨"lab", "g", "s", "mac", "win", "/a"⟩] 100 :=
  cacheWikiPaths_idempotent ⟨[], none⟩ 0 999999 false true
    [⟨"lab", "g", "s", "mac", "win", "/a"⟩] 100 rfl

/-- Claim C1: the dispatcher performs NO containment check on the requested
sub-path. For a valid share (key `k1`, name `readme`, share `data_lab1`
mounted at `/data/lab1`, relative path `proj`), a GET for sub-path
`../../etc/passwd` is NOT rejected: it reaches the filesystem-read outcome
(`get_object` on the raw sub-path under the composed client path), and the
effective path `/data/lab1/proj/../../etc/passwd` resolves outside the mount
root `/data/lab1`. -/
theorem dispatcher_traversal_not_rejected :
    (targetDispatcher ⟨true, []⟩ [⟨"alice", "k1", "readme", "data_lab1", "proj"⟩]
        [⟨"data_lab1", "z", "g", "s", "/data/lab1", "mac", "win", "/data/lab1"⟩]
        none
        ⟨"k1", "readme", "../../etc/passwd", false, none, none, none, none, none,
          none, none, none, none⟩).1
      = .getObject (.accessFlags "alice") "/data/lab1/proj" "../../etc/passwd" none ∧
    escapesRoot "/data/lab1" ("proj" ++ "/" ++ "../../etc/passwd") = true := by
  constructor
  · rfl
  · decide

/-- Claim C2: a request (not carrying the `acl` short-circuit) whose sharing
key is unknown gets the no-such-bucket response whatever sharing name it
supplied, and a request whose key resolves to a row with a different stored
sharing name gets the 400 `InvalidArgument` mismatch response; in both cases
the outcome is an error constructor — produced before the `FileProxyClient`
and proxy context are built, so no filesystem access and no privilege
narrowing occur — and the cache state is untouched. -/
theorem dispatcher_resolution_fails_closed (settings : GatewaySettings)
    (pp : List ProxiedPathRow) (store : List FspRow)
    (c : Option (List (String × String))) (req : GatewayRequest)
    (hacl : req.hasAclParam = false) :
    (getProxiedPathBySharingKey pp req.sharing_key = none →
      targetDispatcher settings pp store c req = (.noSuchBucket req.sharing_name, c)) ∧
    (∀ row, getProxiedPathBySharingKey pp req.sharing_key = some row →
      row.sharing_name ≠ req.sharing_name →
      targetDispatcher settings pp store c req =
        (.errorResponse 400 "InvalidArgument"
          ("Sharing name mismatch for sharing key " ++ req.sharing_key)
          req.sharing_name, c)) := by
  constructor
  · intro hnone
    simp [targetDispatcher, getFileProxyClient, hacl, hnone]
  · intro row hrow hneq
    simp [targetDispatcher, getFileProxyClient, hacl, hrow, hneq]

theorem dispatcher_resolution_fails_closed_witness :
    targetDispatcher ⟨false, []⟩ [] [] none
      ⟨"k1", "readme", "", false, none, none, none, none, none, none, none,
        none, none⟩
      = (.noSuchBucket "readme", none) ∧
    targetDispatcher ⟨false, []⟩ [⟨"alice", "k1", "readme", "fsp", "proj"⟩] [] none
      ⟨"k1", "other", "", false, none, none, none, none, none, none, none,
        none, none⟩
      = (.errorResponse 400 "InvalidArgument"
          ("Sharing name mismatch for sharing key " ++ "k1") "other", none) := by
  constructor
  · exact (dispatcher_resolution_fails_closed ⟨false, []⟩ [] [] none
      ⟨"k1", "readme", "", false, none, none, none, none, none, none, none,
        none, none⟩ rfl).1 rfl
  · exact (dispatcher_resolution_fails_closed ⟨false, []⟩
      [⟨"alice", "k1", "readme", "fsp", "proj"⟩] [] none
      ⟨"k1", "other", "", false, none, none, none, none, none, none, none,
        none, none⟩ rfl).2 ⟨"alice", "k1", "readme", "fsp", "proj"⟩ rfl
      (by decide)

/-- Claim C7, counterexample: the name→mount map is behind `functools.cache`,
so it does NOT reflect the store's contents at request time. First request
(store holds `data_lab1 ↦ /data/lab1`) populates the cache; after the
synchronizer removes that row (empty store), a second request carrying the
populated cache still resolves to `/data/lab1/proj` and reaches the
filesystem read, whereas resolution against the store's current contents
(empty cache) yields the 400 "File share path not found" error. -/
theorem dispatcher_stale_mapping_counterexample :
    (targetDispatcher ⟨false, []⟩ [⟨"alice", "k1", "readme", "data_lab1", "proj"⟩]
        [⟨"data_lab1", "z", "g", "s", "/data/lab1", "mac", "win", "/data/lab1"⟩]
        none
        ⟨"k1", "readme", "a.txt", false, none, none, none, none, none, none,
          none, none, none⟩).2
      = some [("data_lab1", "/data/lab1")] ∧
    (targetDispatcher ⟨false, []⟩ [⟨"alice", "k1", "readme", "data_lab1", "proj"⟩]
        [] (some [("data_lab1", "/data/lab1")])
        ⟨"k1", "readme", "a.txt", false, none, none, none, none, none, none,
          none, none, none⟩).1
      = .getObject .noop "/data/lab1/proj" "a.txt" none ∧
    (targetDispatcher ⟨false, []⟩ [⟨"alice", "k1", "readme", "data_lab1", "proj"⟩]
        [] none
        ⟨"k1", "readme", "a.txt", false, none, none, none, none, none, none,
          none, none, none⟩).1
      = .errorResponse 400 "InvalidArgument"
          ("File share path " ++ "data_lab1" ++ " not found") "readme" := by
  exact ⟨rfl, rfl, rfl⟩

/-- Claim C7 (amended): the fsp-name→mount-path mapping is computed from the
Path Metadata Store on the FIRST resolution and memoized for the process
lifetime (`functools.cache`); once the memo is populated, dispatching is
independent of the store's current contents — only the proxied-path registry
is read freshly per request — and a fresh (empty-cache) resolution computes
the map from the store's current contents. -/
theorem dispatcher_cached_mapping (settings : GatewaySettings)
    (pp : List ProxiedPathRow) (store store2 : List FspRow)
    (m : List (String × String)) (req : GatewayRequest) :
    targetDispatcher settings pp store (some m) req =
      targetDispatcher settings pp store2 (some m) req ∧
    getFspNamesToMountPaths settings store none =
      (computeFspMap settings store, some (computeFspMap settings store)) := by
  constructor
  · cases hacl : req.hasAclParam with
    | true => simp [targetDispatcher, hacl]
    | false =>
      simp only [targetDispatcher, hacl, Bool.false_eq_true, if_false]
      rfl
  · rfl

/-- Claim C8, counterexample: supplying the listing-mode query parameter with
value 0 does not produce the 400 `InvalidArgument` response — Python
truthiness (`if list_type:`) treats 0 like an absent parameter, so the
dispatcher performs an object read (`get_object`). -/
theorem dispatcher_list_type_zero_counterexample :
    (targetDispatcher ⟨true, []⟩ [⟨"alice", "k1", "readme", "data_lab1", "proj"⟩]
        [⟨"data_lab1", "z", "g", "s", "/data/lab1", "mac", "win", "/data/lab1"⟩]
        none
        ⟨"k1", "readme", "a.txt", false, some 0, none, none, none, none, none,
          none, none, none⟩).1
      = .getObject (.accessFlags "alice") "/data/lab1/proj" "a.txt" none ∧
    (DispatchOutcome.getObject (.accessFlags "alice") "/data/lab1/proj" "a.txt" none
      ≠ .errorResponse 400 "InvalidArgument" ("Invalid list type " ++ "0") "a.txt") := by
  exact ⟨rfl, by decide⟩

/-- Claim C8 (amended): for a resolved request, a listing is performed only
when `list-type` is 2; any other NONZERO value yields the 400
`InvalidArgument` response (and no listing or read); the value 0 — falsy in
Python — is treated like an absent parameter and yields an object GET. -/
theorem dispatcher_list_type (settings : GatewaySettings)
    (pp : List ProxiedPathRow) (store : List FspRow)
    (c : Option (List (String × String))) (req : GatewayRequest)
    (info : ClientInfo) (c2 : Option (List (String × String)))
    (hacl : req.hasAclParam = false)
    (hres : getFileProxyClient settings pp store c req.sharing_key req.sharing_name
      = (.inl info, c2)) :
    (req.listType = some 2 →
      targetDispatcher settings pp store c req =
        (.listObjects info.ctx info.clientPath req.continuationToken req.delimiter
          req.encodingType req.fetchOwner req.maxKeys req.pfx req.startAfter, c2)) ∧
    (∀ n : Int, req.listType = some n → n ≠ 2 → n ≠ 0 →
      targetDispatcher settings pp store c req =
        (.errorResponse 400 "InvalidArgument"
          ("Invalid list type " ++ listTypeStr (some n)) req.path, c2)) ∧
    ((req.listType = some 0 ∨ req.listType = none) →
      targetDispatcher settings pp store c req =
        (.getObject info.ctx info.clientPath req.path req.rangeHeader, c2)) := by
  refine ⟨?_, ?_, ?_⟩
  · intro h2
    simp [targetDispatcher, hacl, hres, h2, intTruthy]
  · intro n hn h2 h0
    simp [targetDispatcher, hacl, hres, hn, intTruthy, h0, h2]
  · intro h
    rcases h with h | h <;> simp [targetDispatcher, hacl, hres, h, intTruthy]

theorem dispatcher_list_type_witness :
    targetDispatcher ⟨true, []⟩ [⟨"alice", "k1", "readme", "data_lab1", "proj"⟩]
      [⟨"data_lab1", "z", "g", "s", "/data/lab1", "mac", "win", "/data/lab1"⟩]
      none
      ⟨"k1", "readme", "a.txt", false, some 3, none, none, none, none, none,
        none, none, none⟩
      = (.errorResponse 400 "InvalidArgument"
          ("Invalid list type " ++ listTypeStr (some 3)) "a.txt",
         some [("data_lab1", "/data/lab1")]) :=
  (dispatcher_list_type ⟨true, []⟩ [⟨"alice", "k1", "readme", "data_lab1", "proj"⟩]
    [⟨"data_lab1", "z", "g", "s", "/data/lab1", "mac", "win", "/data/lab1"⟩]
    none
    ⟨"k1", "readme", "a.txt", false, some 3, none, none, none, none, none,
      none, none, none⟩
    ⟨"/data/lab1/proj", .accessFlags "alice"⟩
    (some [("data_lab1", "/data/lab1")]) rfl rfl).2.1 3 rfl
    (by decide) (by decide)

/-- Claim C9: a request whose query parameters include `acl` is answered with
the static read-only ACL document before any sharing-key resolution: the
outcome is `aclDoc` for EVERY registry, store and cache state — in particular
also when the sharing key is unknown or the sharing name mismatched — and no
other query parameter is consulted. -/
theorem dispatcher_acl_short_circuit (settings : GatewaySettings)
    (pp : List ProxiedPathRow) (store : List FspRow)
    (c : Option (List (String × String))) (req : GatewayRequest)
    (h : req.hasAclParam = true) :
    targetDispatcher settings pp store c req = (.aclDoc, c) := by
  simp [targetDispatcher, h]

theorem dispatcher_acl_short_circuit_witness :
    targetDispatcher ⟨true, []⟩ [] [] none
      ⟨"unknown-key", "mismatched", "x", true, some 7, none, none, none, none,
        none, none, none, none⟩
      = (.aclDoc, none) :=
  dispatcher_acl_short_circuit ⟨true, []⟩ [] [] none
    ⟨"unknown-key", "mismatched", "x", true, some 7, none, none, none, none,
      none, none, none, none⟩ rfl

end Fileglancer
